import Mathlib

/-!
Verification of the AeroCloud Nemo extension
(src/shell_integration/linux/nemo/aerocloud_nemo.py).

The Python module has two components with real logic:

* `AeroCloudStatusCache` — a dict from file path to `(status, timestamp)`
  with a TTL; `get` returns a value only while it is fresh and lazily
  deletes stale entries, `set` inserts or overwrites with the current time.
* `AeroCloudDaemonClient` — owns at most one Unix-socket connection;
  `_connect` is rate limited by `RECONNECT_INTERVAL`, `query_status`
  sends a line-based request, reads one buffer, and scans the decoded
  response for a `STATUS:<code>:<extra>` line.

The embedding below is a shallow one: the Python dict becomes an
association list (unique keys are maintained by `set`, exactly as a dict
does), wall-clock time becomes an explicit integer argument (`time.time()`
values at each call), and the operating system / transport becomes an
`Env` oracle recording what `os.path.exists`, `connect`, `sendall` and
`recv` would do at that moment.  Exceptions that the Python code catches
become explicit `TransportResult.err` values; exceptions it does not catch
cannot arise in the translated control flow, so every modelled operation
is a total function.
-/

/-- Result of one transport operation: `ok` carries the value a successful
Python call returns, `err` stands for any of the caught exceptions
(`socket.timeout`, `socket.error`, `OSError`, `BrokenPipeError`). -/
inductive TransportResult (α : Type) where
  | ok : α → TransportResult α
  | err : TransportResult α
deriving Repr, DecidableEq

/-- Association-list lookup, the model of `path in self._cache` /
`self._cache[path]` on a Python dict. -/
def assocLookup (k : String) : List (String × String × Int) → Option (String × Int)
  | [] => none
  | (k', v) :: rest => if k' = k then some v else assocLookup k rest

/-- Association-list overwrite, the model of `self._cache[path] = v`:
replaces the entry for `k` in place, or appends a new one. -/
def assocSet (k : String) (v : String × Int) : List (String × String × Int) → List (String × String × Int)
  | [] => [(k, v)]
  | (k', v') :: rest => if k' = k then (k, v) :: rest else (k', v') :: assocSet k v rest

/-- Association-list deletion, the model of `del self._cache[path]`:
removes the (unique, for dict-shaped lists) entry for `k`. -/
def assocErase (k : String) : List (String × String × Int) → List (String × String × Int)
  | [] => []
  | (k', v') :: rest => if k' = k then rest else (k', v') :: assocErase k rest

/-- State of `AeroCloudStatusCache`: the dict `_cache` (path ↦ (status,
timestamp)) and the TTL `_ttl` (`ttl_seconds`, default 5). The Python
`Lock` only serialises calls; in this sequential model each call is one
atomic function application, so the lock has no separate representation. -/
structure AeroCloudStatusCache where
  cache : List (String × String × Int)
  ttl : Int
deriving Repr, DecidableEq

/-- Model of `AeroCloudStatusCache.get`: `now` is the value of
`time.time()` at the call.  Returns the result and the cache state after
the call (the entry is deleted when it is stale). -/
def AeroCloudStatusCache.get (c : AeroCloudStatusCache) (now : Int) (path : String) :
    Option String × AeroCloudStatusCache :=
  match assocLookup path c.cache with
  | some (status, timestamp) =>
    if now - timestamp < c.ttl then (some status, c)
    else (none, { c with cache := assocErase path c.cache })
  | none => (none, c)

/-- Model of `AeroCloudStatusCache.set`: stores `(status, time.time())`
under `path`. -/
def AeroCloudStatusCache.set (c : AeroCloudStatusCache) (now : Int) (path status : String) :
    AeroCloudStatusCache :=
  { c with cache := assocSet path (status, now) c.cache }

/-! ## Response parsing

`query_status` decodes the received buffer (`errors='ignore'`, so decoding
is total) and runs

    for line in response.splitlines():
        if line.startswith('STATUS:'):
            parts = line.split(':', 2)
            if len(parts) >= 3:
                return parts[1]
    return None

We model the decoded text as `List Char` and translate Python's
`str.splitlines` and `str.split(sep, maxsplit)` directly. -/

/-- The characters Python's `str.splitlines` treats as line boundaries. -/
def isPyLineBoundary (c : Char) : Bool :=
  c = '\n' || c = '\r' || c = '\x0B' || c = '\x0C' || c = '\x1C' || c = '\x1D' ||
    c = '\x1E' || c = '\x85' || c = Char.ofNat 0x2028 || c = Char.ofNat 0x2029

/-- Model of Python `str.splitlines` (no trailing empty line, `\r\n` is a
single boundary); `acc` holds the current line reversed, `afterCR` records
that the previous character was a `'\r'` boundary, so that an immediately
following `'\n'` is consumed as part of the same boundary. -/
def pySplitlinesAux : List Char → List Char → Bool → List (List Char)
  | [], acc, _ => if acc.isEmpty then [] else [acc.reverse]
  | c :: cs, acc, afterCR =>
    if afterCR && c = '\n' then pySplitlinesAux cs acc false
    else if c = '\r' then acc.reverse :: pySplitlinesAux cs [] true
    else if isPyLineBoundary c then acc.reverse :: pySplitlinesAux cs [] false
    else pySplitlinesAux cs (c :: acc) false

/-- Model of `response.splitlines()`. -/
def pySplitlines (s : List Char) : List (List Char) :=
  pySplitlinesAux s [] false

/-- Model of Python `str.split(sep, maxsplit)`; the `Nat` argument counts
the splits still allowed, `acc` holds the current chunk reversed. -/
def pySplitAux (sep : Char) : List Char → Nat → List Char → List (List Char)
  | [], _, acc => [acc.reverse]
  | c :: cs, 0, acc => [acc.reverse ++ c :: cs]
  | c :: cs, n + 1, acc =>
    if c = sep then acc.reverse :: pySplitAux sep cs n []
    else pySplitAux sep cs (n + 1) (c :: acc)

/-- Model of `line.split(sep, maxsplit)`. -/
def pySplit (sep : Char) (maxsplit : Nat) (s : List Char) : List (List Char) :=
  pySplitAux sep s maxsplit []

/-- The literal prefix `'STATUS:'` tested by `line.startswith`. -/
def statusMarker : List Char := "STATUS:".toList

/-- One iteration of the response loop body: the value `return`ed for this
line, or `none` when the loop moves on (no `STATUS:` marker, or fewer than
three colon-separated parts). -/
def statusFromLine (line : List Char) : Option (List Char) :=
  if statusMarker.isPrefixOf line then
    let parts := pySplit ':' 2 line
    if 3 ≤ parts.length then some (parts.getD 1 []) else none
  else none

/-- The whole `for` loop over the response lines. -/
def scanStatus : List (List Char) → Option (List Char)
  | [] => none
  | line :: rest =>
    match statusFromLine line with
    | some code => some code
    | none => scanStatus rest

/-- Parsing of a full decoded response: split into lines, return the
second field of the first `STATUS:`-line with at least three parts. -/
def parseResponse (response : List Char) : Option (List Char) :=
  scanStatus (pySplitlines response)

/-! ## Daemon client -/

/-- `AeroCloudDaemonClient.RECONNECT_INTERVAL` (seconds). -/
def RECONNECT_INTERVAL : Int := 30

/-- Oracle for one `query_status`/`_connect` call: what the clock, the
filesystem and the transport would answer during that call.  `now` is
`time.time()`; `pathExists` is `os.path.exists`; `connectResult` is the
outcome of `socket.socket(...)`/`settimeout`/`connect` (a fresh handle or
a caught exception); `sendResult` is the outcome of `sendall` on the given
request text; `recvResult` is the outcome of `recv(1024)` after the
permissive utf-8 decode. -/
structure Env where
  now : Int
  pathExists : String → Bool
  connectResult : TransportResult Nat
  sendResult : String → TransportResult Unit
  recvResult : TransportResult (List Char)

/-- State of `AeroCloudDaemonClient`: `_socket` (a handle or `None`),
`_socket_path`, `_last_connect_attempt`.  The `Lock` serialises the calls;
in this sequential model each call is one atomic function application. -/
structure AeroCloudDaemonClient where
  socket : Option Nat
  socket_path : Option String
  last_connect_attempt : Int
deriving Repr, DecidableEq

/-- Model of `os.path.join a b` for a relative `b`. -/
def pyPathJoin (a b : String) : String :=
  if a.endsWith "/" then a ++ b else a ++ "/" ++ b

/-- Model of `_find_socket_path`: `<XDG_RUNTIME_DIR>/aerocloud/socket`
when the variable is set and non-empty, else `/tmp/aerocloud-<uid>/socket`. -/
def findSocketPath (runtime_dir : Option String) (uid : Nat) : String :=
  match runtime_dir with
  | some d =>
    if d = "" then "/tmp/aerocloud-" ++ toString uid ++ "/socket"
    else pyPathJoin (pyPathJoin d "aerocloud") "socket"
  | none => "/tmp/aerocloud-" ++ toString uid ++ "/socket"

/-- Model of `__init__`: no socket, the resolved path, attempt time 0.0. -/
def AeroCloudDaemonClient.init (runtime_dir : Option String) (uid : Nat) :
    AeroCloudDaemonClient :=
  { socket := none
    socket_path := some (findSocketPath runtime_dir uid)
    last_connect_attempt := 0 }

/-- Best-effort close and discard of the handle (`close` errors are
swallowed, then `self._socket = None`). -/
def AeroCloudDaemonClient.closeSocket (c : AeroCloudDaemonClient) : AeroCloudDaemonClient :=
  { c with socket := none }

/-- The guard `not self._socket_path or not os.path.exists(self._socket_path)`
negated: the path is set, non-empty (Python truthiness) and exists. -/
def socketPathUsable (env : Env) (sp : Option String) : Bool :=
  match sp with
  | none => false
  | some p => if p = "" then false else env.pathExists p

/-- Model of `_connect`: suppressed inside `RECONNECT_INTERVAL` of the
last attempt (returning whether a socket is held, with no state change);
otherwise records the attempt time, closes any stale handle, checks the
socket path, and connects. -/
def AeroCloudDaemonClient._connect (c : AeroCloudDaemonClient) (env : Env) :
    Bool × AeroCloudDaemonClient :=
  if env.now - c.last_connect_attempt < RECONNECT_INTERVAL then
    (c.socket.isSome, c)
  else
    let c1 : AeroCloudDaemonClient := { c with last_connect_attempt := env.now }
    let c2 : AeroCloudDaemonClient := if c1.socket.isSome then c1.closeSocket else c1
    if socketPathUsable env c2.socket_path then
      match env.connectResult with
      | TransportResult.ok h => (true, { c2 with socket := some h })
      | TransportResult.err => (false, c2)
    else (false, c2)

/-- The request text `f"RETRIEVE_FILE_STATUS\npath\t\x7bfile_path\x7d\ndone\n"`. -/
def buildRequest (file_path : String) : String :=
  "RETRIEVE_FILE_STATUS\npath\t" ++ file_path ++ "\ndone\n"

/-- The `try` block of `query_status`: send, receive, parse; a transport
error (`except` clause) closes and discards the handle and yields `None`. -/
def AeroCloudDaemonClient.trySendRecv (c : AeroCloudDaemonClient) (env : Env)
    (file_path : String) : Option (List Char) × AeroCloudDaemonClient :=
  match env.sendResult (buildRequest file_path) with
  | TransportResult.err => (none, if c.socket.isSome then c.closeSocket else c)
  | TransportResult.ok _ =>
    match env.recvResult with
    | TransportResult.err => (none, if c.socket.isSome then c.closeSocket else c)
    | TransportResult.ok response => (parseResponse response, c)

/-- Model of `query_status`: with no socket, `_connect` decides whether to
proceed (`if not self._socket and not self._connect(): return None`);
then the `try` block runs against the held connection. -/
def AeroCloudDaemonClient.query_status (c : AeroCloudDaemonClient) (env : Env)
    (file_path : String) : Option (List Char) × AeroCloudDaemonClient :=
  match c.socket with
  | some _ => c.trySendRecv env file_path
  | none =>
    match c._connect env with
    | (true, c') => c'.trySendRecv env file_path
    | (false, c') => (none, c')

/-- A sequence of `query_status` calls on one client, each with its own
oracle (its own clock reading and transport behaviour). -/
def runQueries (file_path : String) :
    AeroCloudDaemonClient → List Env → List (Option (List Char)) × AeroCloudDaemonClient
  | c, [] => ([], c)
  | c, e :: es =>
    match c.query_status e file_path with
    | (r, c') =>
      match runQueries file_path c' es with
      | (rs, c'') => (r :: rs, c'')

theorem assocLookup_assocSet_self (k : String) (v : String × Int) (l : List (String × String × Int)) :
    assocLookup k (assocSet k v l) = some v := by
  induction l with
  | nil => simp [assocLookup, assocSet]
  | cons hd tl ih =>
    obtain ⟨k', v'⟩ := hd
    by_cases h : k' = k
    · simp [assocLookup, assocSet, h]
    · simp [assocLookup, assocSet, h, ih]

theorem assocLookup_assocSet_ne (k q : String) (v : String × Int) (l : List (String × String × Int))
    (h : q ≠ k) : assocLookup q (assocSet k v l) = assocLookup q l := by
  induction l with
  | nil => simp [assocLookup, assocSet, Ne.symm h]
  | cons hd tl ih =>
    obtain ⟨k', v'⟩ := hd
    by_cases hk : k' = k
    · subst hk
      simp [assocLookup, assocSet, Ne.symm h]
    · simp [assocLookup, assocSet, hk, ih]

theorem assocLookup_assocErase_ne (k q : String) (l : List (String × String × Int))
    (h : q ≠ k) : assocLookup q (assocErase k l) = assocLookup q l := by
  induction l with
  | nil => simp [assocLookup, assocErase]
  | cons hd tl ih =>
    obtain ⟨k', v'⟩ := hd
    by_cases hk : k' = k
    · subst hk
      simp [assocLookup, assocErase, Ne.symm h]
    · simp [assocLookup, assocErase, hk, ih]

theorem assocLookup_eq_none_of_not_mem (k : String) (l : List (String × String × Int))
    (h : k ∉ l.map Prod.fst) : assocLookup k l = none := by
  induction l with
  | nil => simp [assocLookup]
  | cons hd tl ih =>
    obtain ⟨k', v'⟩ := hd
    simp only [List.map_cons, List.mem_cons] at h
    push_neg at h
    simp [assocLookup, Ne.symm h.1, ih h.2]

theorem assocLookup_assocErase_self_of_nodup (k : String) (l : List (String × String × Int))
    (h : (l.map Prod.fst).Nodup) : assocLookup k (assocErase k l) = none := by
  induction l with
  | nil => simp [assocLookup, assocErase]
  | cons hd tl ih =>
    obtain ⟨k', v'⟩ := hd
    simp only [List.map_cons, List.nodup_cons] at h
    by_cases hk : k' = k
    · subst hk
      simpa [assocErase] using assocLookup_eq_none_of_not_mem _ _ h.1
    · simp only [assocErase, if_neg hk, assocLookup]
      simp [hk, ih h.2]

/-! ## Claims about the status cache -/

/-- C3: for every cache state, path `P` and status `S`, `set(P, S)` at
time `t` followed by `get(P)` at a time `t'` with `t' - t` still below
the TTL returns `S`. -/
theorem C3_set_then_get_within_ttl (c : AeroCloudStatusCache) (t t' : Int) (P S : String)
    (h : t' - t < c.ttl) :
    ((c.set t P S).get t' P).1 = some S := by
  simp [AeroCloudStatusCache.get, AeroCloudStatusCache.set, assocLookup_assocSet_self, h]

/-- Witness for C3: an empty cache with the default TTL of 5, `set` at
time 0 and `get` at time 1. -/
theorem C3_set_then_get_within_ttl_witness :
    (1 - 0 < (AeroCloudStatusCache.mk [] 5).ttl) ∧
    (((AeroCloudStatusCache.mk [] 5).set 0 "/home/u/f" "OK").get 1 "/home/u/f").1 = some "OK" :=
  ⟨by decide, C3_set_then_get_within_ttl (AeroCloudStatusCache.mk [] 5) 0 1 "/home/u/f" "OK"
    (by decide)⟩

/-- C4: once the TTL has elapsed since the entry for `P` was stored
(`ttl ≤ now - timestamp`), `get(P)` returns `none` and deletes the entry;
the hypothesis on the keys holds for every dict-shaped cache (Python dict
keys are unique). -/
theorem C4_stale_entry_absent_and_removed (c : AeroCloudStatusCache) (t' : Int) (P s : String)
    (ts : Int) (hl : assocLookup P c.cache = some (s, ts)) (hstale : c.ttl ≤ t' - ts)
    (hnd : (c.cache.map Prod.fst).Nodup) :
    (c.get t' P).1 = none ∧ assocLookup P ((c.get t' P).2).cache = none := by
  have hcond : ¬ (t' - ts < c.ttl) := not_lt.mpr hstale
  constructor <;>
    simp [AeroCloudStatusCache.get, hl, hcond,
      assocLookup_assocErase_self_of_nodup P c.cache hnd]

/-- Witness for C4: a one-entry cache stored at time 0 with TTL 5, read
at time 5. -/
theorem C4_stale_entry_absent_and_removed_witness :
    (assocLookup "/a" [("/a", "OK", 0)] = some ("OK", 0)) ∧
    ((AeroCloudStatusCache.mk [("/a", "OK", 0)] 5).get 5 "/a").1 = none ∧
    assocLookup "/a" (((AeroCloudStatusCache.mk [("/a", "OK", 0)] 5).get 5 "/a").2).cache = none :=
  ⟨by decide,
    C4_stale_entry_absent_and_removed (AeroCloudStatusCache.mk [("/a", "OK", 0)] 5) 5 "/a" "OK" 0
      (by decide) (by decide) (by decide)⟩

/-- C9: cache operations are local to their key: `set(P, S)` and `get(P)`
leave the entry of any other key `Q` (value and timestamp) unchanged, and
`get(P)` on an absent key leaves the whole cache state unchanged. -/
theorem C9_cache_ops_frame (c : AeroCloudStatusCache) (t : Int) (P Q S : String) (hne : Q ≠ P) :
    assocLookup Q ((c.set t P S).cache) = assocLookup Q c.cache ∧
    assocLookup Q (((c.get t P).2).cache) = assocLookup Q c.cache ∧
    (assocLookup P c.cache = none → (c.get t P).2 = c) := by
  refine ⟨?_, ?_, ?_⟩
  · simpa [AeroCloudStatusCache.set] using assocLookup_assocSet_ne P Q (S, t) c.cache hne
  · cases hl : assocLookup P c.cache with
    | none => simp [AeroCloudStatusCache.get, hl]
    | some v =>
      obtain ⟨s, ts⟩ := v
      by_cases hc : t - ts < c.ttl
      · simp [AeroCloudStatusCache.get, hl, hc]
      · simp [AeroCloudStatusCache.get, hl, hc, assocLookup_assocErase_ne P Q c.cache hne]
  · intro hP
    simp [AeroCloudStatusCache.get, hP]

/-- Witness for C9: a two-entry cache, operations on `/a`, observation of
`/b` — one branch of `get` is stale so the deletion path is exercised. -/
theorem C9_cache_ops_frame_witness :
    ("/b" ≠ "/a") ∧
    (assocLookup "/b" (((AeroCloudStatusCache.mk [("/a", "OK", 0), ("/b", "SYNC", 1)] 5).set 9
        "/a" "NEW").cache) =
      assocLookup "/b" [("/a", "OK", 0), ("/b", "SYNC", 1)] ∧
    assocLookup "/b" ((((AeroCloudStatusCache.mk [("/a", "OK", 0), ("/b", "SYNC", 1)] 5).get 9
        "/a").2).cache) =
      assocLookup "/b" [("/a", "OK", 0), ("/b", "SYNC", 1)] ∧
    (assocLookup "/a" [("/a", "OK", 0), ("/b", "SYNC", 1)] = none →
      ((AeroCloudStatusCache.mk [("/a", "OK", 0), ("/b", "SYNC", 1)] 5).get 9 "/a").2 =
        AeroCloudStatusCache.mk [("/a", "OK", 0), ("/b", "SYNC", 1)] 5)) :=
  ⟨by decide,
    C9_cache_ops_frame (AeroCloudStatusCache.mk [("/a", "OK", 0), ("/b", "SYNC", 1)] 5) 9
      "/a" "/b" "NEW" (by decide)⟩

/-! ## Parsing lemmas -/

theorem isPrefixOf_append (l r : List Char) : l.isPrefixOf (l ++ r) = true := by
  induction l with
  | nil => simp [List.isPrefixOf]
  | cons c cs ih => simp [List.isPrefixOf, ih]

theorem pySplitAux_zero (sep : Char) (r acc : List Char) :
    pySplitAux sep r 0 acc = [acc.reverse ++ r] := by
  cases r <;> simp [pySplitAux]

theorem pySplitAux_append_sep (sep : Char) (l r acc : List Char) (n : Nat)
    (hl : ∀ ch ∈ l, ch ≠ sep) :
    pySplitAux sep (l ++ sep :: r) (n + 1) acc = (acc.reverse ++ l) :: pySplitAux sep r n [] := by
  induction l generalizing acc with
  | nil => simp [pySplitAux]
  | cons c cs ih =>
    have hc : c ≠ sep := hl c (by simp)
    simp only [List.cons_append, pySplitAux, if_neg hc, List.append_eq]
    rw [ih (c :: acc) (fun ch hm => hl ch (by simp [hm]))]
    simp

theorem statusFromLine_status (code extra : List Char) (hcode : ∀ ch ∈ code, ch ≠ ':') :
    statusFromLine (statusMarker ++ code ++ ':' :: extra) = some code := by
  have hpre : statusMarker.isPrefixOf (statusMarker ++ code ++ ':' :: extra) = true := by
    exact isPrefixOf_append statusMarker (code ++ ':' :: extra)
  have hm : statusMarker = "STATUS".toList ++ [':'] := by decide
  have hstat : ∀ ch ∈ "STATUS".toList, ch ≠ ':' := by decide
  have hparts : pySplit ':' 2 (statusMarker ++ code ++ ':' :: extra) =
      ["STATUS".toList, code, extra] := by
    have h1 : statusMarker ++ code ++ ':' :: extra =
        "STATUS".toList ++ ':' :: (code ++ ':' :: extra) := by
      rw [hm]; simp
    rw [pySplit, h1, pySplitAux_append_sep ':' "STATUS".toList (code ++ ':' :: extra) [] 1 hstat,
      pySplitAux_append_sep ':' code extra [] 0 hcode, pySplitAux_zero]
    simp
  rw [statusFromLine, hparts]
  simp [hpre]

theorem pySplitlinesAux_single_line (l acc : List Char)
    (hl : ∀ ch ∈ l, isPyLineBoundary ch = false) :
    pySplitlinesAux (l ++ ['\n']) acc false = [acc.reverse ++ l] := by
  induction l generalizing acc with
  | nil =>
    have hn : isPyLineBoundary '\n' = true := by decide
    have hr : ('\n' : Char) ≠ '\r' := by decide
    simp [pySplitlinesAux, hn, hr]
  | cons c cs ih =>
    have hc := hl c (by simp)
    have hcr : c ≠ '\r' := by
      intro hcc
      rw [hcc] at hc
      simp [isPyLineBoundary] at hc
    simp only [List.cons_append, pySplitlinesAux, Bool.false_and, Bool.false_eq_true, if_false,
      if_neg hcr, hc, List.append_eq]
    rw [ih (c :: acc) (fun ch hm => hl ch (by simp [hm]))]
    simp

theorem parseResponse_single_status_line (code extra : List Char)
    (hcode : ∀ ch ∈ code, isPyLineBoundary ch = false ∧ ch ≠ ':')
    (hextra : ∀ ch ∈ extra, isPyLineBoundary ch = false) :
    parseResponse (statusMarker ++ code ++ ':' :: extra ++ ['\n']) = some code := by
  have hmk : ∀ ch ∈ statusMarker, isPyLineBoundary ch = false := by decide
  have hline : ∀ ch ∈ statusMarker ++ code ++ ':' :: extra, isPyLineBoundary ch = false := by
    intro ch hm
    simp only [List.mem_append, List.mem_cons] at hm
    rcases hm with (hm | hm) | hm | hm
    · exact hmk ch hm
    · exact (hcode ch hm).1
    · rw [hm]; decide
    · exact hextra ch hm
  have hsplit : pySplitlines (statusMarker ++ code ++ ':' :: extra ++ ['\n']) =
      [statusMarker ++ code ++ ':' :: extra] := by
    have h1 : statusMarker ++ code ++ ':' :: extra ++ ['\n'] =
        (statusMarker ++ code ++ ':' :: extra) ++ ['\n'] := by simp
    rw [pySplitlines, h1, pySplitlinesAux_single_line _ [] hline]
    simp
  rw [parseResponse, hsplit, scanStatus, statusFromLine_status code extra
    (fun ch hm => (hcode ch hm).2)]

/-! ## Claims about the daemon client -/

/-- C1: with a live connection handle, any transport-level failure during
send or receive makes `query_status` close and discard the handle
(`_socket = None`) and return `None`; in this total model no translated
failure mode escapes as an exception. -/
theorem C1_transport_failure_closes_and_returns_none (c : AeroCloudDaemonClient) (env : Env)
    (fp : String) (h : Nat)
    (hsock : c.socket = some h)
    (hfail : env.sendResult (buildRequest fp) = TransportResult.err ∨
      env.recvResult = TransportResult.err) :
    c.query_status env fp = (none, { c with socket := none }) := by
  rcases hfail with hf | hf
  · simp [AeroCloudDaemonClient.query_status, AeroCloudDaemonClient.trySendRecv, hsock, hf,
      AeroCloudDaemonClient.closeSocket]
  · cases hs : env.sendResult (buildRequest fp) with
    | err =>
      simp [AeroCloudDaemonClient.query_status, AeroCloudDaemonClient.trySendRecv, hsock, hs,
        AeroCloudDaemonClient.closeSocket]
    | ok u =>
      simp [AeroCloudDaemonClient.query_status, AeroCloudDaemonClient.trySendRecv, hsock, hs, hf,
        AeroCloudDaemonClient.closeSocket]

/-- Witness for C1: a connected client whose `recv` times out. -/
theorem C1_transport_failure_closes_and_returns_none_witness :
    (AeroCloudDaemonClient.mk (some 4) (some "/run/aerocloud/socket") 0).socket = some 4 ∧
    (AeroCloudDaemonClient.mk (some 4) (some "/run/aerocloud/socket") 0).query_status
        (Env.mk 50 (fun _ => true) TransportResult.err (fun _ => TransportResult.ok ())
          TransportResult.err) "/home/u/f" =
      (none, AeroCloudDaemonClient.mk none (some "/run/aerocloud/socket") 0) :=
  ⟨rfl,
    C1_transport_failure_closes_and_returns_none
      (AeroCloudDaemonClient.mk (some 4) (some "/run/aerocloud/socket") 0)
      (Env.mk 50 (fun _ => true) TransportResult.err (fun _ => TransportResult.ok ())
        TransportResult.err) "/home/u/f" 4 rfl (Or.inr rfl)⟩

/-- C2: with a live connection, a response that is the single line
`STATUS:<code>:<extra>` followed by a newline (with `<code>` free of
colons and of line boundaries and `<extra>` free of line boundaries)
makes `query_status` return `<code>`; the witness instantiates the mock
reply `STATUS:OK:synced\n` and gets `OK`. -/
theorem C2_status_line_second_field_returned (c : AeroCloudDaemonClient) (env : Env)
    (fp : String) (h : Nat) (code extra : List Char)
    (hsock : c.socket = some h)
    (hcode : ∀ ch ∈ code, isPyLineBoundary ch = false ∧ ch ≠ ':')
    (hextra : ∀ ch ∈ extra, isPyLineBoundary ch = false)
    (hsend : env.sendResult (buildRequest fp) = TransportResult.ok ())
    (hrecv : env.recvResult = TransportResult.ok (statusMarker ++ code ++ ':' :: extra ++ ['\n'])) :
    (c.query_status env fp).1 = some code := by
  simp only [AeroCloudDaemonClient.query_status, AeroCloudDaemonClient.trySendRecv, hsock, hsend,
    hrecv]
  exact parseResponse_single_status_line code extra hcode hextra

/-- Witness for C2: the daemon replies `STATUS:OK:synced\n` and the call
returns `OK`. -/
theorem C2_status_line_second_field_returned_witness :
    (AeroCloudDaemonClient.mk (some 1) (some "/run/aerocloud/socket") 0).socket = some 1 ∧
    ((AeroCloudDaemonClient.mk (some 1) (some "/run/aerocloud/socket") 0).query_status
        (Env.mk 50 (fun _ => true) TransportResult.err (fun _ => TransportResult.ok ())
          (TransportResult.ok "STATUS:OK:synced\n".toList)) "/home/u/f").1 =
      some "OK".toList :=
  ⟨rfl,
    C2_status_line_second_field_returned
      (AeroCloudDaemonClient.mk (some 1) (some "/run/aerocloud/socket") 0)
      (Env.mk 50 (fun _ => true) TransportResult.err (fun _ => TransportResult.ok ())
        (TransportResult.ok "STATUS:OK:synced\n".toList)) "/home/u/f" 1
      "OK".toList "synced".toList rfl (by decide) (by decide) rfl (by decide)⟩

/-- C7: with a live connection and a working transport, a response whose
lines contain no acceptable `STATUS:` line makes `query_status` return
`None` while leaving the whole client state — in particular the socket
handle — unchanged, so the next call reuses the same connection. -/
theorem C7_protocol_miss_keeps_connection (c : AeroCloudDaemonClient) (env : Env) (fp : String)
    (h : Nat) (resp : List Char)
    (hsock : c.socket = some h)
    (hsend : env.sendResult (buildRequest fp) = TransportResult.ok ())
    (hrecv : env.recvResult = TransportResult.ok resp)
    (hmiss : parseResponse resp = none) :
    c.query_status env fp = (none, c) := by
  simp [AeroCloudDaemonClient.query_status, AeroCloudDaemonClient.trySendRecv, hsock, hsend, hrecv,
    hmiss]

/-- Witness for C7: garbage bytes with no `STATUS:` line. -/
theorem C7_protocol_miss_keeps_connection_witness :
    parseResponse "garbage\nnoise".toList = none ∧
    (AeroCloudDaemonClient.mk (some 2) (some "/run/aerocloud/socket") 7).query_status
        (Env.mk 50 (fun _ => true) TransportResult.err (fun _ => TransportResult.ok ())
          (TransportResult.ok "garbage\nnoise".toList)) "/home/u/f" =
      (none, AeroCloudDaemonClient.mk (some 2) (some "/run/aerocloud/socket") 7) :=
  ⟨by decide,
    C7_protocol_miss_keeps_connection
      (AeroCloudDaemonClient.mk (some 2) (some "/run/aerocloud/socket") 7)
      (Env.mk 50 (fun _ => true) TransportResult.err (fun _ => TransportResult.ok ())
        (TransportResult.ok "garbage\nnoise".toList)) "/home/u/f" 2 "garbage\nnoise".toList
      rfl rfl rfl (by decide)⟩

/-- C10: a `STATUS:`-prefixed line with fewer than three colon-separated
parts is skipped and scanning continues with the later lines; the
concrete conjuncts show `STATUS:OK` alone yields nothing, a later
well-formed line is still found, and the empty extra field `STATUS:OK:`
is accepted with code `OK`. -/
theorem C10_short_status_line_skipped (line : List Char) (rest : List (List Char))
    (hpre : statusMarker.isPrefixOf line = true)
    (hshort : (pySplit ':' 2 line).length < 3) :
    scanStatus (line :: rest) = scanStatus rest ∧
    parseResponse "STATUS:OK".toList = none ∧
    parseResponse "STATUS:OK\nSTATUS:SYNC:x\n".toList = some "SYNC".toList ∧
    parseResponse "STATUS:OK:".toList = some "OK".toList := by
  refine ⟨?_, by decide, by decide, by decide⟩
  have hsl : statusFromLine line = none := by
    simp [statusFromLine, hpre, not_le.mpr hshort]
  simp [scanStatus, hsl]

/-- Witness for C10: the skipped line `STATUS:OK` followed by a
well-formed line. -/
theorem C10_short_status_line_skipped_witness :
    statusMarker.isPrefixOf "STATUS:OK".toList = true ∧
    (pySplit ':' 2 "STATUS:OK".toList).length < 3 ∧
    (scanStatus ["STATUS:OK".toList, "STATUS:SYNC:x".toList] =
        scanStatus ["STATUS:SYNC:x".toList] ∧
      parseResponse "STATUS:OK".toList = none ∧
      parseResponse "STATUS:OK\nSTATUS:SYNC:x\n".toList = some "SYNC".toList ∧
      parseResponse "STATUS:OK:".toList = some "OK".toList) :=
  ⟨by decide, by decide,
    C10_short_status_line_skipped "STATUS:OK".toList ["STATUS:SYNC:x".toList]
      (by decide) (by decide)⟩

/-- Helper: with no socket held, a `query_status` call inside the
suppression window is answered `None` with no state change at all. -/
theorem query_status_suppressed (c : AeroCloudDaemonClient) (env : Env) (fp : String)
    (hsock : c.socket = none)
    (hwin : env.now - c.last_connect_attempt < RECONNECT_INTERVAL) :
    c.query_status env fp = (none, c) := by
  simp [AeroCloudDaemonClient.query_status, AeroCloudDaemonClient._connect, hsock, hwin]

/-- Helper: a whole sequence of calls inside the suppression window of a
disconnected client answers `None` every time and leaves the client
untouched, whatever each call's filesystem and transport oracles say. -/
theorem runQueries_suppressed (fp : String) (c : AeroCloudDaemonClient) (envs : List Env)
    (hsock : c.socket = none)
    (hwin : ∀ e ∈ envs, e.now - c.last_connect_attempt < RECONNECT_INTERVAL) :
    runQueries fp c envs = (envs.map (fun _ => none), c) := by
  induction envs with
  | nil => simp [runQueries]
  | cons e es ih =>
    have h1 := query_status_suppressed c e fp hsock (hwin e (by simp))
    simp [runQueries, h1, ih (fun e' he' => hwin e' (by simp [he']))]

/-- C5: if the socket path does not exist, the first (non-suppressed)
`query_status` attempt returns `None`, only records the attempt time, and
creates no socket; every further call within `RECONNECT_INTERVAL` of that
attempt also returns `None` and changes nothing, whatever its oracle
would have allowed, so no connection object exists in the window. -/
theorem C5_socket_path_missing_window (c : AeroCloudDaemonClient) (env1 : Env) (envs : List Env)
    (fp : String)
    (hsock : c.socket = none)
    (hfirst : RECONNECT_INTERVAL ≤ env1.now - c.last_connect_attempt)
    (hpath : ∀ p, c.socket_path = some p → env1.pathExists p = false)
    (hwin : ∀ e ∈ envs, e.now - env1.now < RECONNECT_INTERVAL) :
    c.query_status env1 fp = (none, { c with last_connect_attempt := env1.now }) ∧
    (c.query_status env1 fp).2.socket = none ∧
    runQueries fp { c with last_connect_attempt := env1.now } envs =
      (envs.map (fun _ => none), { c with last_connect_attempt := env1.now }) := by
  have hu : socketPathUsable env1 c.socket_path = false := by
    cases hsp : c.socket_path with
    | none => rfl
    | some p => simp [socketPathUsable, hpath p hsp]
  have h1 : c._connect env1 = (false, { c with last_connect_attempt := env1.now }) := by
    simp [AeroCloudDaemonClient._connect, not_lt.mpr hfirst, hsock, hu,
      AeroCloudDaemonClient.closeSocket]
  have h2 : c.query_status env1 fp = (none, { c with last_connect_attempt := env1.now }) := by
    simp [AeroCloudDaemonClient.query_status, hsock, h1]
  refine ⟨h2, by simp [h2, hsock], ?_⟩
  exact runQueries_suppressed fp _ envs (by simp [hsock]) (fun e he => by simpa using hwin e he)

/-- Witness for C5: the default socket path is absent; the first call is
at time 100, a second call at time 110 would even be allowed to connect
by its oracle but never consults it. -/
theorem C5_socket_path_missing_window_witness :
    ((30 : Int) ≤ 100 - 0) ∧
    ((AeroCloudDaemonClient.mk none (some "/tmp/aerocloud-1000/socket") 0).query_status
        (Env.mk 100 (fun _ => false) (TransportResult.ok 9) (fun _ => TransportResult.ok ())
          (TransportResult.ok [])) "/home/u/f" =
      (none, AeroCloudDaemonClient.mk none (some "/tmp/aerocloud-1000/socket") 100) ∧
    ((AeroCloudDaemonClient.mk none (some "/tmp/aerocloud-1000/socket") 0).query_status
        (Env.mk 100 (fun _ => false) (TransportResult.ok 9) (fun _ => TransportResult.ok ())
          (TransportResult.ok [])) "/home/u/f").2.socket = none ∧
    runQueries "/home/u/f" (AeroCloudDaemonClient.mk none (some "/tmp/aerocloud-1000/socket") 100)
        [Env.mk 110 (fun _ => true) (TransportResult.ok 9) (fun _ => TransportResult.ok ())
          (TransportResult.ok [])] =
      ([none], AeroCloudDaemonClient.mk none (some "/tmp/aerocloud-1000/socket") 100)) :=
  ⟨by decide,
    C5_socket_path_missing_window (AeroCloudDaemonClient.mk none (some "/tmp/aerocloud-1000/socket") 0)
      (Env.mk 100 (fun _ => false) (TransportResult.ok 9) (fun _ => TransportResult.ok ())
        (TransportResult.ok []))
      [Env.mk 110 (fun _ => true) (TransportResult.ok 9) (fun _ => TransportResult.ok ())
        (TransportResult.ok [])] "/home/u/f" rfl (by decide) (fun p _ => rfl)
      (by intro e he; rw [List.mem_singleton] at he; subst he; decide)⟩

/-- C6: a connection attempt less than `RECONNECT_INTERVAL` after the
previous attempt is fully suppressed: `_connect` returns whether a
handle is held and the state unchanged, for every oracle (so neither
`os.path.exists` nor `connect` is consulted), whether the prior attempt
succeeded (a handle is held) or failed (none is). -/
theorem C6_attempt_suppressed_within_interval (c : AeroCloudDaemonClient) (env : Env)
    (hwin : env.now - c.last_connect_attempt < RECONNECT_INTERVAL) :
    c._connect env = (c.socket.isSome, c) := by
  simp [AeroCloudDaemonClient._connect, hwin]

/-- Witness for C6: one suppressed attempt after a success (handle 3
held) and one after a failure (no handle), both at time 10 after an
attempt at time 0, with oracles that would have let a connect succeed. -/
theorem C6_attempt_suppressed_within_interval_witness :
    ((10 : Int) - 0 < RECONNECT_INTERVAL) ∧
    (AeroCloudDaemonClient.mk (some 3) (some "/run/aerocloud/socket") 0)._connect
        (Env.mk 10 (fun _ => true) (TransportResult.ok 8) (fun _ => TransportResult.ok ())
          (TransportResult.ok [])) =
      (true, AeroCloudDaemonClient.mk (some 3) (some "/run/aerocloud/socket") 0) ∧
    (AeroCloudDaemonClient.mk none (some "/run/aerocloud/socket") 0)._connect
        (Env.mk 10 (fun _ => true) (TransportResult.ok 8) (fun _ => TransportResult.ok ())
          (TransportResult.ok [])) =
      (false, AeroCloudDaemonClient.mk none (some "/run/aerocloud/socket") 0) :=
  ⟨by decide,
    C6_attempt_suppressed_within_interval
      (AeroCloudDaemonClient.mk (some 3) (some "/run/aerocloud/socket") 0)
      (Env.mk 10 (fun _ => true) (TransportResult.ok 8) (fun _ => TransportResult.ok ())
        (TransportResult.ok [])) (by decide),
    C6_attempt_suppressed_within_interval
      (AeroCloudDaemonClient.mk none (some "/run/aerocloud/socket") 0)
      (Env.mk 10 (fun _ => true) (TransportResult.ok 8) (fun _ => TransportResult.ok ())
        (TransportResult.ok [])) (by decide)⟩

/-- C8: while a handle is held, `query_status` is decided by the send and
receive oracles alone: two environments agreeing on those give identical
calls, so the clock, the filesystem check and the connect oracle — the
whole reconnect-suppression logic — are never consulted; the call leaves
`_last_connect_attempt` and `_socket_path` unchanged, and its result does
not depend on the stored attempt timestamp at all. -/
theorem C8_live_handle_skips_reconnect_logic (c : AeroCloudDaemonClient) (env env' : Env)
    (fp : String) (h : Nat)
    (hsock : c.socket = some h)
    (hsend : env'.sendResult = env.sendResult)
    (hrecv : env'.recvResult = env.recvResult) :
    c.query_status env' fp = c.query_status env fp ∧
    ((c.query_status env fp).2).last_connect_attempt = c.last_connect_attempt ∧
    ((c.query_status env fp).2).socket_path = c.socket_path ∧
    (∀ t : Int, (({ c with last_connect_attempt := t } : AeroCloudDaemonClient).query_status
      env fp).1 = (c.query_status env fp).1) := by
  obtain ⟨cs, csp, cla⟩ := c
  simp only at hsock
  subst hsock
  refine ⟨?_, ?_, ?_, ?_⟩
  · simp [AeroCloudDaemonClient.query_status, AeroCloudDaemonClient.trySendRecv, hsend, hrecv]
  · simp only [AeroCloudDaemonClient.query_status, AeroCloudDaemonClient.trySendRecv]
    cases env.sendResult (buildRequest fp) with
    | err => simp [AeroCloudDaemonClient.closeSocket]
    | ok u =>
      cases env.recvResult with
      | err => simp [AeroCloudDaemonClient.closeSocket]
      | ok resp => simp
  · simp only [AeroCloudDaemonClient.query_status, AeroCloudDaemonClient.trySendRecv]
    cases env.sendResult (buildRequest fp) with
    | err => simp [AeroCloudDaemonClient.closeSocket]
    | ok u =>
      cases env.recvResult with
      | err => simp [AeroCloudDaemonClient.closeSocket]
      | ok resp => simp
  · intro t
    simp only [AeroCloudDaemonClient.query_status, AeroCloudDaemonClient.trySendRecv]
    cases env.sendResult (buildRequest fp) with
    | err => simp
    | ok u =>
      cases env.recvResult with
      | err => simp
      | ok resp => simp

/-- Witness for C8: the two environments disagree on the clock, the
filesystem and the connect oracle and agree on the transport; the client
holds handle 2 with attempt timestamp 5. -/
theorem C8_live_handle_skips_reconnect_logic_witness :
    (AeroCloudDaemonClient.mk (some 2) (some "/run/aerocloud/socket") 5).socket = some 2 ∧
    (AeroCloudDaemonClient.mk (some 2) (some "/run/aerocloud/socket") 5).query_status
        (Env.mk 999 (fun _ => true) (TransportResult.ok 7) (fun _ => TransportResult.ok ())
          (TransportResult.ok "STATUS:OK:x\n".toList)) "/home/u/f" =
      (AeroCloudDaemonClient.mk (some 2) (some "/run/aerocloud/socket") 5).query_status
        (Env.mk 0 (fun _ => false) TransportResult.err (fun _ => TransportResult.ok ())
          (TransportResult.ok "STATUS:OK:x\n".toList)) "/home/u/f" ∧
    ((AeroCloudDaemonClient.mk (some 2) (some "/run/aerocloud/socket") 42).query_status
        (Env.mk 0 (fun _ => false) TransportResult.err (fun _ => TransportResult.ok ())
          (TransportResult.ok "STATUS:OK:x\n".toList)) "/home/u/f").1 =
      ((AeroCloudDaemonClient.mk (some 2) (some "/run/aerocloud/socket") 5).query_status
        (Env.mk 0 (fun _ => false) TransportResult.err (fun _ => TransportResult.ok ())
          (TransportResult.ok "STATUS:OK:x\n".toList)) "/home/u/f").1 :=
  ⟨rfl,
    (C8_live_handle_skips_reconnect_logic
      (AeroCloudDaemonClient.mk (some 2) (some "/run/aerocloud/socket") 5)
      (Env.mk 0 (fun _ => false) TransportResult.err (fun _ => TransportResult.ok ())
        (TransportResult.ok "STATUS:OK:x\n".toList))
      (Env.mk 999 (fun _ => true) (TransportResult.ok 7) (fun _ => TransportResult.ok ())
        (TransportResult.ok "STATUS:OK:x\n".toList)) "/home/u/f" 2 rfl rfl rfl).1,
    (C8_live_handle_skips_reconnect_logic
      (AeroCloudDaemonClient.mk (some 2) (some "/run/aerocloud/socket") 5)
      (Env.mk 0 (fun _ => false) TransportResult.err (fun _ => TransportResult.ok ())
        (TransportResult.ok "STATUS:OK:x\n".toList))
      (Env.mk 999 (fun _ => true) (TransportResult.ok 7) (fun _ => TransportResult.ok ())
        (TransportResult.ok "STATUS:OK:x\n".toList)) "/home/u/f" 2 rfl rfl rfl).2.2.2 42⟩

/-- Counterexample to C2 as literally stated: this response contains the
line `STATUS:OK:synced`, yet `query_status` returns `ERROR`, because an
earlier acceptable `STATUS:` line wins — only the first such line's code
is ever returned. -/
theorem C2_contains_line_counterexample :
    "STATUS:OK:synced".toList ∈ pySplitlines "STATUS:ERROR:x\nSTATUS:OK:synced\n".toList ∧
    ((AeroCloudDaemonClient.mk (some 1) (some "/run/aerocloud/socket") 0).query_status
        (Env.mk 50 (fun _ => true) TransportResult.err (fun _ => TransportResult.ok ())
          (TransportResult.ok "STATUS:ERROR:x\nSTATUS:OK:synced\n".toList)) "/home/u/f").1 =
      some "ERROR".toList ∧
    some "ERROR".toList ≠ some "OK".toList := by
  refine ⟨by decide, by decide, by decide⟩
